import Mathlib

/-!
Verification of the client-side credential protection layer of the Lynx
repository: the token encryption subsystem and its contract with the
authenticated request pipeline (source: the API client module holding
getOrCreateDeviceSecret, deriveKey, encryptToken, decryptToken,
getAuthToken, getAuthTokenAsync, setAuthToken, removeAuthToken and
apiRequest).

Modelling conventions, stated once here:

* The browser platform (Web Crypto, base64, TextEncoder, localStorage) is
  not code of the repository; it is modelled symbolically, in the standard
  idealized-cryptography style: byte values are an inductive type `MBytes`
  whose constructors record how a value was produced (raw random bytes,
  UTF-8 encoding of a string, a PBKDF2-derived key with its exact
  parameters, an AES-GCM ciphertext tagged with the key and nonce that
  produced it); storage strings are `MStr` (a plain JS string, or the
  base64 rendering of a byte value).  AES-GCM decryption succeeds exactly
  on the ciphertext produced under the same key and nonce, which is the
  documented AEAD contract.  `atob` inverts `btoa`; a plain string that
  did not come from `btoa` fails to decode, idealizing that bearer tokens
  are not valid base64.
* JavaScript truthiness on `localStorage.getItem` results and on
  `string | null` values is modelled explicitly (`optTruthy`,
  `MStr.truthy`, `strTruthy`): `null` and the empty string are falsy.
* Thrown JS exceptions are `Except JsErr`; state (the three storage slots,
  the in-memory cache singleton, the entropy supply) is threaded
  explicitly, and a throwing function returns the state reached at the
  throw point, so side effects performed before a throw persist.
* Promise-based functions are modelled by their settled result: the
  repository's fire-and-forget `setAuthToken` is modelled as the state
  transformation its promise handlers eventually perform, together with
  the list of console messages it emits (empty on both branches, since
  the source logs nothing there).
* `apiRequest`'s network step is an input: the function is modelled from
  the point the `fetch` response is available.  `response.json()`
  parse failure is the `jsonOk` flag; `response.ok` is the fetch-spec
  predicate status in [200, 300).
-/

/-- Symbolic byte values of the platform model.  Each constructor records
the provenance of the bytes: raw random bytes, the UTF-8 encoding of a
string (TextEncoder), a key derived by PBKDF2 (with its secret, salt,
iteration count, hash name, cipher name and key length, mirroring the
literals passed to subtle.deriveKey), or an AES-GCM ciphertext carrying
the key, nonce and plaintext that produced it. -/
inductive MBytes : Type where
  | raw : List Nat → MBytes
  | utf8 : String → MBytes
  | derivedKey : MBytes → MBytes → Nat → String → String → Nat → MBytes
  | ct : MBytes → MBytes → MBytes → MBytes
deriving DecidableEq

/-- Storage strings: a plain JavaScript string, or the base64 rendering
(btoa) of a byte value. -/
inductive MStr : Type where
  | str : String → MStr
  | b64 : MBytes → MStr
deriving DecidableEq

/-- Whether a byte value is empty (its base64 rendering is the empty
string).  Derived keys and GCM ciphertexts are never empty (a GCM
ciphertext always carries a 16-byte tag). -/
def MBytes.isEmptyB : MBytes → Bool
  | .raw l => l.isEmpty
  | .utf8 s => s.isEmpty
  | .derivedKey _ _ _ _ _ _ => false
  | .ct _ _ _ => false

/-- JavaScript truthiness of a storage string: the empty string is falsy. -/
def MStr.truthy : MStr → Bool
  | .str s => !s.isEmpty
  | .b64 b => !b.isEmptyB

/-- Truthiness of a `localStorage.getItem` result (`string | null`):
`null` and the empty string are falsy. -/
def optTruthy : Option MStr → Bool
  | some s => s.truthy
  | none => false

/-- Truthiness of a `string | null` JavaScript value. -/
def strTruthy : Option String → Bool
  | some s => !s.isEmpty
  | none => false

/-- btoa: base64-encode a binary string. -/
def btoa (b : MBytes) : MStr := MStr.b64 b

/-- atob: decode a base64 string, failing (throwing, at call sites) on a
string that is not a base64 rendering.  Plain strings are treated as
undecodable; see the module comment. -/
def atob : MStr → Option MBytes
  | .b64 b => some b
  | .str _ => none

/-- TextDecoder.decode: recover the string from a UTF-8 byte value; on
any other byte value the real decoder produces replacement characters,
modelled as the empty string (no claim depends on that text). -/
def textDecode : MBytes → String
  | .utf8 s => s
  | .raw _ => ""
  | .derivedKey _ _ _ _ _ _ => ""
  | .ct _ _ _ => ""

/-- JavaScript exceptions that the modelled code can throw. -/
inductive JsErr : Type where
  | webCryptoUnavailable : JsErr
  | invalidB64 : JsErr
deriving DecidableEq

/-- The three persistent storage slots the module uses, as fields:
`tok` is the entry under key lynx-auth-token (base64 ciphertext, or the
plaintext token on the fallback path), `iv` the entry under key
lynx-auth-iv-lynx-auth-token (base64 nonce), `secret` the entry under key
lynx-device-secret (base64 32-byte device secret). -/
structure Storage : Type where
  tok : Option MStr
  iv : Option MStr
  secret : Option MStr
deriving DecidableEq

/-- The in-memory cache record `window.__lynxTokenCache`:
{ iv, ct, val } with `val` the cached plaintext token. -/
structure TokenCache : Type where
  iv : MStr
  ct : MStr
  val : String
deriving DecidableEq

/-- Mutable world state: persistent storage, the cache singleton, and the
entropy supply consumed by crypto.getRandomValues (successive outputs;
an exhausted supply yields zero bytes — the claims hold for every
supply). -/
structure St : Type where
  storage : Storage
  cache : Option TokenCache
  randSrc : List (List Nat)
deriving DecidableEq

/-- Static environment: whether the Web Crypto API is available, and
location.origin. -/
structure Env : Type where
  cryptoAvailable : Bool
  origin : String
deriving DecidableEq

/-- Fix a byte list to exactly `n` entries, zero-padding, so that
getRandomValues always fills its whole buffer. -/
def padTrunc (n : Nat) (l : List Nat) : List Nat :=
  l.take n ++ List.replicate (n - l.length) 0

/-- crypto.getRandomValues on an `n`-byte buffer: consume the next entry
of the entropy supply. -/
def getRandomValues (n : Nat) (st : St) : List Nat × St :=
  match st.randSrc with
  | r :: rs => (padTrunc n r, { st with randSrc := rs })
  | [] => (List.replicate n 0, st)

/-- getCryptoOrThrow: return the Web Crypto handle or throw. -/
def getCryptoOrThrow (env : Env) : Except JsErr Unit :=
  if env.cryptoAvailable then Except.ok () else Except.error JsErr.webCryptoUnavailable

/-- getOrCreateDeviceSecret: if the device-secret slot holds a truthy
value, base64-decode and return it (atob throws on an undecodable value);
otherwise generate 32 random bytes (throwing if Web Crypto is
unavailable), persist them base64-encoded, and return them. -/
def getOrCreateDeviceSecret (env : Env) (st : St) : Except JsErr MBytes × St :=
  match st.storage.secret with
  | some existing =>
    if existing.truthy then
      match atob existing with
      | some b => (Except.ok b, st)
      | none => (Except.error JsErr.invalidB64, st)
    else
      match getCryptoOrThrow env with
      | Except.error e => (Except.error e, st)
      | Except.ok _ =>
        let bufSt := getRandomValues 32 st
        (Except.ok (MBytes.raw bufSt.1),
          { bufSt.2 with storage := { bufSt.2.storage with secret := some (btoa (MBytes.raw bufSt.1)) } })
  | none =>
    match getCryptoOrThrow env with
    | Except.error e => (Except.error e, st)
    | Except.ok _ =>
      let bufSt := getRandomValues 32 st
      (Except.ok (MBytes.raw bufSt.1),
        { bufSt.2 with storage := { bufSt.2.storage with secret := some (btoa (MBytes.raw bufSt.1)) } })

/-- deriveKey: check Web Crypto, obtain the device secret, and derive an
AES-GCM key by PBKDF2 with salt = UTF-8 bytes of location.origin,
100000 iterations, SHA-256, key length 256 — the exact literals of the
source. -/
def deriveKey (env : Env) (st : St) : Except JsErr MBytes × St :=
  match getCryptoOrThrow env with
  | Except.error e => (Except.error e, st)
  | Except.ok _ =>
    match getOrCreateDeviceSecret env st with
    | (Except.error e, st1) => (Except.error e, st1)
    | (Except.ok deviceSecret, st1) =>
      (Except.ok (MBytes.derivedKey deviceSecret (MBytes.utf8 env.origin) 100000 "SHA-256" "AES-GCM" 256), st1)

/-- The parameter literals of the source's deriveKey call, as the key the
model derives from device secret bytes `b` at origin `origin`. -/
def pbkdf2Key (b : MBytes) (origin : String) : MBytes :=
  MBytes.derivedKey b (MBytes.utf8 origin) 100000 "SHA-256" "AES-GCM" 256

/-- subtle.encrypt with AES-GCM: in the idealized model the ciphertext
records the key, nonce and plaintext that produced it. -/
def subtleEncrypt (key iv pt : MBytes) : MBytes := MBytes.ct key iv pt

/-- subtle.decrypt with AES-GCM: succeeds exactly on the ciphertext
produced under the same key and nonce (the AEAD authenticity contract);
everything else is rejected. -/
def subtleDecrypt (key iv ctb : MBytes) : Option MBytes :=
  match ctb with
  | MBytes.ct k i pt => if k = key ∧ i = iv then some pt else none
  | _ => none

/-- encryptToken: derive the key, draw a fresh 12-byte nonce, AES-GCM
encrypt the UTF-8 token, and base64-encode nonce and ciphertext. -/
def encryptToken (env : Env) (token : String) (st : St) : Except JsErr (MStr × MStr) × St :=
  match getCryptoOrThrow env with
  | Except.error e => (Except.error e, st)
  | Except.ok _ =>
    match deriveKey env st with
    | (Except.error e, st1) => (Except.error e, st1)
    | (Except.ok key, st1) =>
      let ivSt := getRandomValues 12 st1
      (Except.ok (btoa (MBytes.raw ivSt.1), btoa (subtleEncrypt key (MBytes.raw ivSt.1) (MBytes.utf8 token))), ivSt.2)

/-- decryptToken: the whole body runs in a try/catch returning null, so
every failure (Web Crypto missing, device secret undecodable, malformed
base64 nonce or ciphertext, AEAD rejection) yields `none` and the state
reached at the failure point. -/
def decryptToken (env : Env) (ivB64 ctB64 : MStr) (st : St) : Option String × St :=
  match getCryptoOrThrow env with
  | Except.error _ => (none, st)
  | Except.ok _ =>
    match deriveKey env st with
    | (Except.error _, st1) => (none, st1)
    | (Except.ok key, st1) =>
      match atob ivB64 with
      | none => (none, st1)
      | some iv =>
        match atob ctB64 with
        | none => (none, st1)
        | some ctb =>
          match subtleDecrypt key iv ctb with
          | none => (none, st1)
          | some pt => (some (textDecode pt), st1)

/-- getAuthToken (the synchronous reader): read both storage entries; if
either is falsy return null; otherwise return the cached plaintext only
when the cache record exists and its (iv, ct) pair equals the stored
pair, else null.  Pure: no decryption, no state change. -/
def getAuthToken (st : St) : Option String :=
  match st.storage.tok, st.storage.iv with
  | some ctB64, some ivB64 =>
    if ctB64.truthy && ivB64.truthy then
      match st.cache with
      | some cached =>
        if cached.iv = ivB64 ∧ cached.ct = ctB64 then some cached.val else none
      | none => none
    else none
  | some _, none => none
  | none, some _ => none
  | none, none => none

/-- getAuthTokenAsync: return a truthy sync-cache hit; otherwise read the
stored pair (falsy entries give null), decrypt it, populate the cache
when the result is truthy, and return the decryption result. -/
def getAuthTokenAsync (env : Env) (st : St) : Option String × St :=
  let cached := getAuthToken st
  if strTruthy cached then (cached, st)
  else
    match st.storage.tok, st.storage.iv with
    | some ctB64, some ivB64 =>
      if ctB64.truthy && ivB64.truthy then
        let valSt := decryptToken env ivB64 ctB64 st
        if strTruthy valSt.1 then
          (valSt.1, { valSt.2 with cache := some { iv := ivB64, ct := ctB64, val := valSt.1.getD "" } })
        else (valSt.1, valSt.2)
      else (none, st)
    | some _, none => (none, st)
    | none, some _ => (none, st)
    | none, none => (none, st)

/-- setAuthToken, modelled by the settled effect of its promise chain:
on encryption success store ciphertext and nonce and cache the
plaintext; on encryption failure the catch handler stores the plaintext
token under the token key and does nothing else.  The second component
is the list of console messages emitted: empty on both paths, because
the source's catch handler contains only a comment. -/
def setAuthToken (env : Env) (token : String) (st : St) : St × List String :=
  match encryptToken env token st with
  | (Except.ok pair, st1) =>
    ({ st1 with
        storage := { st1.storage with tok := some pair.2, iv := some pair.1 },
        cache := some { iv := pair.1, ct := pair.2, val := token } }, [])
  | (Except.error _, st1) =>
    ({ st1 with storage := { st1.storage with tok := some (MStr.str token) } }, [])

/-- removeAuthToken: delete both storage entries and the cache record. -/
def removeAuthToken (st : St) : St :=
  { st with storage := { st.storage with tok := none, iv := none }, cache := none }

/-- The fetch response as the request pipeline observes it: HTTP status,
whether `response.json()` parses, and the parsed body's `error` and
`message` fields (absent fields are `none`). -/
structure FetchResponse : Type where
  status : Nat
  jsonOk : Bool
  error : Option String
  message : Option String
deriving DecidableEq

/-- Response.ok per the fetch specification: status in [200, 300). -/
def respOk (resp : FetchResponse) : Bool :=
  decide (200 ≤ resp.status) && decide (resp.status < 300)

/-- JavaScript `a || b` on a possibly-absent string: falsy (absent or
empty) falls through to the default. -/
def jsOr (a : Option String) (b : String) : String :=
  match a with
  | some s => if s.isEmpty then b else s
  | none => b

/-- The message of the SyntaxError thrown by `response.json()` on a
non-JSON body; engine-specific text, relevant only in that it is not
AUTH_EXPIRED. -/
def jsonParseErrorMessage : String := "Unexpected end of JSON input"

deriving instance DecidableEq for Except

/-- Result of one apiRequest call: the Authorization header it attached,
the outcome delivered to the caller (parsed body, or the thrown error's
message), the final world state, and the console messages emitted. -/
structure ApiResult : Type where
  authHeader : Option String
  outcome : Except String FetchResponse
  finalSt : St
  logs : List String
deriving DecidableEq

/-- apiRequest, from the point the fetch response is available (URL
construction and the network are the environment): resolve the token via
the async reader and attach a Bearer header when truthy; parse the body
(a parse failure is caught by the outer catch before the status check);
on a non-ok status, clear the token slot and throw AUTH_EXPIRED for
401/403, otherwise throw the body's error or message or the normalized
default; the outer catch logs and rethrows `error.message` with a
connection-failure default. -/
def apiRequest (env : Env) (endpoint : String) (st : St) (resp : FetchResponse) : ApiResult :=
  let tokenSt := getAuthTokenAsync env st
  let hdr := if strTruthy tokenSt.1 then some ("Bearer " ++ tokenSt.1.getD "") else none
  let errLog := "API Request Error (" ++ endpoint ++ ")"
  if resp.jsonOk = false then
    { authHeader := hdr,
      outcome := Except.error (jsOr (some jsonParseErrorMessage) "Failed to connect to the server"),
      finalSt := tokenSt.2, logs := [errLog] }
  else if respOk resp = false then
    if resp.status = 401 ∨ resp.status = 403 then
      { authHeader := hdr,
        outcome := Except.error (jsOr (some "AUTH_EXPIRED") "Failed to connect to the server"),
        finalSt := removeAuthToken tokenSt.2, logs := [errLog] }
    else
      { authHeader := hdr,
        outcome := Except.error
          (jsOr (some (jsOr resp.error (jsOr resp.message "Request failed"))) "Failed to connect to the server"),
        finalSt := tokenSt.2, logs := [errLog] }
  else
    { authHeader := hdr, outcome := Except.ok resp, finalSt := tokenSt.2, logs := [] }

/-! ## Concrete instances used by witnesses and counterexamples -/

/-- An environment with Web Crypto available, at a standard origin. -/
def envOn : Env := ⟨true, "https://example.com"⟩

/-- An environment without Web Crypto. -/
def envOff : Env := ⟨false, "https://example.com"⟩

/-- The empty state: no storage entries, no cache, no entropy. -/
def stEmpty : St := ⟨⟨none, none, none⟩, none, []⟩

/-- A state whose cache pair matches the (non-empty) stored pair. -/
def stHit : St :=
  ⟨⟨some (MStr.b64 (MBytes.raw [2])), some (MStr.b64 (MBytes.raw [1])), none⟩,
    some ⟨MStr.b64 (MBytes.raw [1]), MStr.b64 (MBytes.raw [2]), "t"⟩, []⟩

/-- A state whose cache (iv, ct) pair equals the stored entries exactly,
but whose stored ciphertext entry is the empty string. -/
def stEmptyCt : St :=
  ⟨⟨some (MStr.str ""), some (MStr.str "x"), none⟩,
    some ⟨MStr.str "x", MStr.str "", "t"⟩, []⟩

/-- A state holding a matching cached token whose stored pair can no
longer be decrypted (the device-secret entry is undecodable garbage). -/
def stStale : St :=
  ⟨⟨some (MStr.b64 (MBytes.raw [2])), some (MStr.b64 (MBytes.raw [1])), some (MStr.str "garbage")⟩,
    some ⟨MStr.b64 (MBytes.raw [1]), MStr.b64 (MBytes.raw [2]), "A"⟩, []⟩

/-- A state with only a (plaintext) token entry present. -/
def stTok : St := ⟨⟨some (MStr.str "x"), none, none⟩, none, []⟩

/-- A state of a previous encrypted login: stored (nonce, ciphertext)
pair and matching cache, with an undecodable device-secret entry so that
a later encryption attempt fails. -/
def stPrev : St :=
  ⟨⟨some (MStr.b64 (MBytes.raw [4])), some (MStr.b64 (MBytes.raw [3])), some (MStr.str "garbage")⟩,
    some ⟨MStr.b64 (MBytes.raw [3]), MStr.b64 (MBytes.raw [4]), "A"⟩, []⟩

/-- A state whose device-secret entry is present but is the empty
string, with one entropy draw available. -/
def stEmptySecret : St := ⟨⟨none, none, some (MStr.str "")⟩, none, [[9]]⟩

/-- A state with a stored, decodable device secret. -/
def stSecret7 : St := ⟨⟨none, none, some (MStr.b64 (MBytes.raw [7]))⟩, none, []⟩

/-- A 401 response with a JSON body. -/
def respJson401 : FetchResponse := ⟨401, true, some "Invalid token", none⟩

/-- A 401 response whose body does not parse as JSON. -/
def respBad401 : FetchResponse := ⟨401, false, none, none⟩

/-! ## Helper lemmas about the modelled operations -/

theorem length_pos_isEmpty_false (l : List Nat) (h : l.length = 32) : l.isEmpty = false := by
  cases l <;> simp_all

theorem padTrunc_length (n : Nat) (l : List Nat) : (padTrunc n l).length = n := by
  simp [padTrunc]
  omega

theorem getRandomValues_spec (n : Nat) (st : St) :
    (getRandomValues n st).1.length = n ∧
    (getRandomValues n st).2.storage = st.storage ∧
    (getRandomValues n st).2.cache = st.cache ∧
    (getRandomValues n st).2.randSrc = st.randSrc.tail := by
  cases h : st.randSrc with
  | nil => simp [getRandomValues, h]
  | cons r rs => simp [getRandomValues, h, padTrunc_length]

theorem getOrCreate_error_state (env : Env) (st : St) (e : JsErr) (st1 : St)
    (h : getOrCreateDeviceSecret env st = (Except.error e, st1)) : st1 = st := by
  unfold getOrCreateDeviceSecret at h
  split at h
  · split at h
    · split at h <;> simp_all
    · split at h <;> simp_all
  · split at h <;> simp_all

theorem getOrCreate_frame (env : Env) (st : St) :
    (getOrCreateDeviceSecret env st).2.storage.tok = st.storage.tok ∧
    (getOrCreateDeviceSecret env st).2.storage.iv = st.storage.iv ∧
    (getOrCreateDeviceSecret env st).2.cache = st.cache := by
  unfold getOrCreateDeviceSecret
  have hrv := getRandomValues_spec 32 st
  split
  · split
    · split <;> simp_all
    · split <;> simp_all
  · split <;> simp_all

theorem getOrCreate_ok_secret (env : Env) (st : St) (b : MBytes) (st1 : St)
    (h : getOrCreateDeviceSecret env st = (Except.ok b, st1)) :
    st1.storage.secret = some (MStr.b64 b) ∧ b.isEmptyB = false := by
  unfold getOrCreateDeviceSecret at h
  have hrv := getRandomValues_spec 32 st
  split at h
  · rename_i existing hsec
    split at h
    · rename_i ht
      cases hat : atob existing with
      | none => rw [hat] at h; simp_all
      | some bb =>
        rw [hat] at h
        simp only [Prod.mk.injEq, Except.ok.injEq] at h
        obtain ⟨hb, hst⟩ := h
        subst hb; subst hst
        cases existing with
        | str s => simp [atob] at hat
        | b64 bv =>
          simp [atob] at hat
          subst hat
          simp [MStr.truthy] at ht
          exact ⟨hsec, ht⟩
    · split at h
      · simp_all
      · simp only [Prod.mk.injEq, Except.ok.injEq] at h
        obtain ⟨hb, hst⟩ := h
        subst hb; subst hst
        refine ⟨rfl, ?_⟩
        exact length_pos_isEmpty_false _ hrv.1
  · split at h
    · simp_all
    · simp only [Prod.mk.injEq, Except.ok.injEq] at h
      obtain ⟨hb, hst⟩ := h
      subst hb; subst hst
      refine ⟨rfl, ?_⟩
      exact length_pos_isEmpty_false _ hrv.1

theorem getOrCreate_of_secret (env : Env) (st : St) (b : MBytes)
    (hsec : st.storage.secret = some (MStr.b64 b)) (hne : b.isEmptyB = false) :
    getOrCreateDeviceSecret env st = (Except.ok b, st) := by
  unfold getOrCreateDeviceSecret
  rw [hsec]
  simp [MStr.truthy, hne, atob]

theorem deriveKey_error_state (env : Env) (st : St) (e : JsErr) (st1 : St)
    (h : deriveKey env st = (Except.error e, st1)) : st1 = st := by
  unfold deriveKey at h
  cases hc : getCryptoOrThrow env with
  | error e2 => rw [hc] at h; simp_all
  | ok u =>
    rw [hc] at h
    cases hg : getOrCreateDeviceSecret env st with
    | mk r st2 =>
      cases r with
      | error e3 =>
        rw [hg] at h
        simp only [Prod.mk.injEq] at h
        obtain ⟨_, hst⟩ := h
        subst hst
        exact getOrCreate_error_state env st e3 st2 hg
      | ok b => rw [hg] at h; simp_all

theorem deriveKey_ok_inv (env : Env) (st : St) (k : MBytes) (st1 : St)
    (h : deriveKey env st = (Except.ok k, st1)) :
    env.cryptoAvailable = true ∧
    ∃ b, st1.storage.secret = some (MStr.b64 b) ∧ b.isEmptyB = false ∧ k = pbkdf2Key b env.origin := by
  unfold deriveKey at h
  cases hc : env.cryptoAvailable with
  | false => simp [getCryptoOrThrow, hc] at h
  | true =>
    refine ⟨rfl, ?_⟩
    rw [show getCryptoOrThrow env = Except.ok () from by simp [getCryptoOrThrow, hc]] at h
    cases hg : getOrCreateDeviceSecret env st with
    | mk r st2 =>
      cases r with
      | error e3 => rw [hg] at h; simp_all
      | ok b =>
        rw [hg] at h
        simp only [Prod.mk.injEq, Except.ok.injEq] at h
        obtain ⟨hk, hst⟩ := h
        subst hst
        obtain ⟨hsec, hne⟩ := getOrCreate_ok_secret env st b st2 hg
        exact ⟨b, hsec, hne, hk.symm⟩

theorem deriveKey_of_secret (env : Env) (st : St) (b : MBytes)
    (hc : env.cryptoAvailable = true)
    (hsec : st.storage.secret = some (MStr.b64 b)) (hne : b.isEmptyB = false) :
    deriveKey env st = (Except.ok (pbkdf2Key b env.origin), st) := by
  unfold deriveKey
  rw [show getCryptoOrThrow env = Except.ok () from by simp [getCryptoOrThrow, hc]]
  rw [getOrCreate_of_secret env st b hsec hne]
  rfl

theorem deriveKey_frame (env : Env) (st : St) :
    (deriveKey env st).2.storage.tok = st.storage.tok ∧
    (deriveKey env st).2.storage.iv = st.storage.iv ∧
    (deriveKey env st).2.cache = st.cache := by
  unfold deriveKey
  have hf := getOrCreate_frame env st
  cases hc : getCryptoOrThrow env with
  | error e => simp
  | ok u =>
    cases hg : getOrCreateDeviceSecret env st with
    | mk r st2 =>
      rw [hg] at hf
      cases r <;> simp_all

theorem encryptToken_error_state (env : Env) (token : String) (st : St) (e : JsErr) (st1 : St)
    (h : encryptToken env token st = (Except.error e, st1)) : st1 = st := by
  unfold encryptToken at h
  cases hc : getCryptoOrThrow env with
  | error e2 => rw [hc] at h; simp_all
  | ok u =>
    rw [hc] at h
    cases hg : deriveKey env st with
    | mk r st2 =>
      cases r with
      | error e3 =>
        rw [hg] at h
        simp only [Prod.mk.injEq] at h
        obtain ⟨_, hst⟩ := h
        subst hst
        exact deriveKey_error_state env st e3 st2 hg
      | ok k => rw [hg] at h; simp_all

theorem encryptToken_ok_inv (env : Env) (token : String) (st : St)
    (ivB64 ctB64 : MStr) (st1 : St)
    (h : encryptToken env token st = (Except.ok (ivB64, ctB64), st1)) :
    env.cryptoAvailable = true ∧
    ∃ b iv, st1.storage.secret = some (MStr.b64 b) ∧ b.isEmptyB = false ∧
      ivB64 = MStr.b64 (MBytes.raw iv) ∧
      ctB64 = MStr.b64 (MBytes.ct (pbkdf2Key b env.origin) (MBytes.raw iv) (MBytes.utf8 token)) := by
  unfold encryptToken at h
  cases hc : env.cryptoAvailable with
  | false => simp [getCryptoOrThrow, hc] at h
  | true =>
    refine ⟨rfl, ?_⟩
    rw [show getCryptoOrThrow env = Except.ok () from by simp [getCryptoOrThrow, hc]] at h
    cases hg : deriveKey env st with
    | mk r st2 =>
      cases r with
      | error e3 => rw [hg] at h; simp_all
      | ok k =>
        rw [hg] at h
        simp only [Prod.mk.injEq, Except.ok.injEq, subtleEncrypt, btoa] at h
        obtain ⟨⟨hiv, hct⟩, hst⟩ := h
        obtain ⟨hcb, b, hsec, hne, hk⟩ := deriveKey_ok_inv env st k st2 hg
        have hrv := getRandomValues_spec 12 st2
        refine ⟨b, (getRandomValues 12 st2).1, ?_, hne, hiv.symm, ?_⟩
        · rw [← hst, hrv.2.1, hsec]
        · rw [← hct, hk]

theorem decryptToken_frame (env : Env) (ivB64 ctB64 : MStr) (st : St) :
    (decryptToken env ivB64 ctB64 st).2.storage.tok = st.storage.tok ∧
    (decryptToken env ivB64 ctB64 st).2.storage.iv = st.storage.iv ∧
    (decryptToken env ivB64 ctB64 st).2.cache = st.cache := by
  unfold decryptToken
  have hf := deriveKey_frame env st
  cases hc : getCryptoOrThrow env with
  | error e => simp
  | ok u =>
    cases hg : deriveKey env st with
    | mk r st2 =>
      rw [hg] at hf
      cases r with
      | error e => simp_all
      | ok k =>
        cases atob ivB64 with
        | none => simp_all
        | some iv =>
          cases atob ctB64 with
          | none => simp_all
          | some ctb =>
            cases h2 : subtleDecrypt k iv ctb <;> simp_all

theorem subtleDecrypt_some_inv (k iv ctb pt : MBytes)
    (h : subtleDecrypt k iv ctb = some pt) : ctb = MBytes.ct k iv pt := by
  cases ctb with
  | ct k0 i0 p0 =>
    rw [show subtleDecrypt k iv (MBytes.ct k0 i0 p0)
        = if k0 = k ∧ i0 = iv then some p0 else none from rfl] at h
    by_cases hcond : k0 = k ∧ i0 = iv
    · rw [if_pos hcond] at h
      simp only [Option.some.injEq] at h
      rw [hcond.1, hcond.2, h]
    · rw [if_neg hcond] at h
      exact absurd h (by simp)
  | raw l => simp [subtleDecrypt] at h
  | utf8 s => simp [subtleDecrypt] at h
  | derivedKey a b c d e f => simp [subtleDecrypt] at h

theorem decryptToken_plainStr_none (env : Env) (ivB64 : MStr) (s : String) (st : St) :
    (decryptToken env ivB64 (MStr.str s) st).1 = none := by
  unfold decryptToken
  cases hc : getCryptoOrThrow env with
  | error e => simp
  | ok u =>
    cases hg : deriveKey env st with
    | mk r st2 =>
      cases r with
      | error e => simp
      | ok k =>
        cases hiv : atob ivB64 with
        | none => simp
        | some iv => simp [atob]

/-! ## Claim theorems -/

/-- Claim C9: removeAuthToken is idempotent: one call empties both
storage entries and the cache (the model is total, so no call throws),
and a second call produces the same state as the first. -/
theorem removeAuthToken_idempotent (st : St) :
    removeAuthToken (removeAuthToken st) = removeAuthToken st ∧
    (removeAuthToken st).storage.tok = none ∧
    (removeAuthToken st).storage.iv = none ∧
    (removeAuthToken st).cache = none := by
  simp [removeAuthToken]

/-- Claim C3: deriveKey is deterministic with the spec's exact
parameters: a successful derivation is stable (deriving again from the
resulting state yields the same key, so a ciphertext produced under one
derived key decrypts under the other, as the third conjunct states), and
the key is PBKDF2 of the device secret with salt = UTF-8 bytes of
location.origin, 100000 iterations, SHA-256, for AES-GCM at 256 bits. -/
theorem deriveKey_deterministic (env : Env) (st : St) (k : MBytes) (st1 : St)
    (h : deriveKey env st = (Except.ok k, st1)) :
    deriveKey env st1 = (Except.ok k, st1) ∧
    (∃ b, st1.storage.secret = some (MStr.b64 b) ∧
      k = MBytes.derivedKey b (MBytes.utf8 env.origin) 100000 "SHA-256" "AES-GCM" 256) ∧
    (∀ iv pt, subtleDecrypt k iv (subtleEncrypt k iv pt) = some pt) := by
  obtain ⟨hc, b, hsec, hne, hk⟩ := deriveKey_ok_inv env st k st1 h
  refine ⟨?_, ⟨b, hsec, hk⟩, ?_⟩
  · rw [deriveKey_of_secret env st1 b hc hsec hne, hk]
  · intro iv pt
    simp [subtleDecrypt, subtleEncrypt]

/-- Witness for C3: a concrete state with a stored device secret, where
the derived key is exactly the PBKDF2 parameters applied to it. -/
theorem deriveKey_deterministic_witness :
    deriveKey ⟨true, "https://example.com"⟩
        ⟨⟨none, none, some (MStr.b64 (MBytes.raw [7]))⟩, none, []⟩ =
      (Except.ok (MBytes.derivedKey (MBytes.raw [7]) (MBytes.utf8 "https://example.com")
          100000 "SHA-256" "AES-GCM" 256),
        ⟨⟨none, none, some (MStr.b64 (MBytes.raw [7]))⟩, none, []⟩) :=
  (deriveKey_deterministic ⟨true, "https://example.com"⟩
      ⟨⟨none, none, some (MStr.b64 (MBytes.raw [7]))⟩, none, []⟩
      (MBytes.derivedKey (MBytes.raw [7]) (MBytes.utf8 "https://example.com")
        100000 "SHA-256" "AES-GCM" 256)
      ⟨⟨none, none, some (MStr.b64 (MBytes.raw [7]))⟩, none, []⟩ (by decide)).1

/-- Claim C1: encrypt-then-decrypt round trip: whenever encryptToken
succeeds and produces the (nonce, ciphertext) pair, decryptToken on that
pair in the resulting state (same device secret, same origin) returns
the original token. -/
theorem encrypt_decrypt_roundtrip (env : Env) (token : String) (st : St)
    (ivB64 ctB64 : MStr) (st1 : St)
    (h : encryptToken env token st = (Except.ok (ivB64, ctB64), st1)) :
    (decryptToken env ivB64 ctB64 st1).1 = some token := by
  obtain ⟨hc, b, iv, hsec, hne, hiv, hct⟩ := encryptToken_ok_inv env token st ivB64 ctB64 st1 h
  subst hiv; subst hct
  unfold decryptToken
  rw [show getCryptoOrThrow env = Except.ok () from by simp [getCryptoOrThrow, hc]]
  rw [deriveKey_of_secret env st1 b hc hsec hne]
  simp [atob, subtleDecrypt, textDecode]

/-- Witness for C1: a concrete encryption of "tok-123" under a stored
device secret, decrypted back to "tok-123". -/
theorem encrypt_decrypt_roundtrip_witness :
    (decryptToken ⟨true, "https://example.com"⟩
        (MStr.b64 (MBytes.raw [5, 0, 0, 0, 0, 0, 0, 0, 0, 0, 0, 0]))
        (MStr.b64 (MBytes.ct
          (MBytes.derivedKey (MBytes.raw [7]) (MBytes.utf8 "https://example.com")
            100000 "SHA-256" "AES-GCM" 256)
          (MBytes.raw [5, 0, 0, 0, 0, 0, 0, 0, 0, 0, 0, 0]) (MBytes.utf8 "tok-123")))
        ⟨⟨none, none, some (MStr.b64 (MBytes.raw [7]))⟩, none, []⟩).1 = some "tok-123" :=
  encrypt_decrypt_roundtrip ⟨true, "https://example.com"⟩ "tok-123"
    ⟨⟨none, none, some (MStr.b64 (MBytes.raw [7]))⟩, none, [[5]]⟩
    (MStr.b64 (MBytes.raw [5, 0, 0, 0, 0, 0, 0, 0, 0, 0, 0, 0]))
    (MStr.b64 (MBytes.ct
      (MBytes.derivedKey (MBytes.raw [7]) (MBytes.utf8 "https://example.com")
        100000 "SHA-256" "AES-GCM" 256)
      (MBytes.raw [5, 0, 0, 0, 0, 0, 0, 0, 0, 0, 0, 0]) (MBytes.utf8 "tok-123")))
    ⟨⟨none, none, some (MStr.b64 (MBytes.raw [7]))⟩, none, []⟩ (by decide)

/-- Claim C4: decryptToken fails closed.  The model function is total
(the source wraps its whole body in try/catch), so it never throws;
malformed base64 input yields null; and it returns a plaintext only for
the exact ciphertext produced under the currently derived key and nonce
(the AEAD contract), so a tampered ciphertext or a wrong key yields
null, never a corrupted plaintext. -/
theorem decryptToken_fails_closed (env : Env) (st : St) (ivB64 ctB64 : MStr) :
    (atob ivB64 = none ∨ atob ctB64 = none → (decryptToken env ivB64 ctB64 st).1 = none) ∧
    (∀ v, (decryptToken env ivB64 ctB64 st).1 = some v →
      ∃ k st1 iv pt, deriveKey env st = (Except.ok k, st1) ∧
        atob ivB64 = some iv ∧ atob ctB64 = some (MBytes.ct k iv pt) ∧ v = textDecode pt) := by
  unfold decryptToken
  cases hc : getCryptoOrThrow env with
  | error e => simp
  | ok u =>
    cases hg : deriveKey env st with
    | mk r st2 =>
      cases r with
      | error e => simp
      | ok k =>
        cases hiv : atob ivB64 with
        | none => simp
        | some iv =>
          cases hct : atob ctB64 with
          | none => simp
          | some ctb =>
            refine ⟨?_, ?_⟩
            · intro hd
              rcases hd with h1 | h1 <;> simp_all
            · intro v hv
              cases hsd : subtleDecrypt k iv ctb with
              | none => simp [hsd] at hv
              | some pt =>
                simp [hsd] at hv
                refine ⟨k, st2, iv, pt, rfl, rfl, ?_, ?_⟩
                · rw [subtleDecrypt_some_inv k iv ctb pt hsd]
                · exact hv.symm

/-- Witness for C4: decrypting a malformed (non-base64) pair returns
null. -/
theorem decryptToken_fails_closed_witness :
    (decryptToken ⟨true, "https://example.com"⟩ (MStr.str "not base64") (MStr.str "junk")
        ⟨⟨none, none, none⟩, none, []⟩).1 = none :=
  (decryptToken_fails_closed ⟨true, "https://example.com"⟩ ⟨⟨none, none, none⟩, none, []⟩
      (MStr.str "not base64") (MStr.str "junk")).1 (Or.inl (by decide))

/-- Counterexample to claim C2 as stated: in this state the cache's
recorded (nonce, ciphertext) pair exactly equals the pair stored under
the two storage keys, yet getAuthToken returns null instead of the
cached plaintext, because the stored ciphertext entry is the empty
string and the code treats falsy entries as missing. -/
theorem getAuthToken_match_counterexample :
    getAuthToken stEmptyCt = none ∧
    stEmptyCt.cache = some ⟨MStr.str "x", MStr.str "", "t"⟩ ∧
    stEmptyCt.storage.tok = some (MStr.str "") ∧
    stEmptyCt.storage.iv = some (MStr.str "x") ∧
    getAuthToken stEmptyCt ≠ some "t" := by
  refine ⟨by decide, by decide, by decide, by decide, by decide⟩

/-- Claim C2 (amended): getAuthToken returns a plaintext v exactly when
the cache record exists with value v and its recorded (nonce,
ciphertext) pair equals the two stored entries and both stored entries
are non-empty; in every other case (an entry missing or empty, or any
mismatch with the cache) it returns null.  It is pure — no decryption,
no state change. -/
theorem getAuthToken_characterization (st : St) (v : String) :
    getAuthToken st = some v ↔
      ∃ c, st.cache = some c ∧ c.val = v ∧
        st.storage.tok = some c.ct ∧ st.storage.iv = some c.iv ∧
        c.ct.truthy = true ∧ c.iv.truthy = true := by
  constructor
  · intro h
    unfold getAuthToken at h
    cases htok : st.storage.tok with
    | none => rw [htok] at h; cases hiv : st.storage.iv <;> rw [hiv] at h <;> simp at h
    | some ctB64 =>
      rw [htok] at h
      cases hiv : st.storage.iv with
      | none => rw [hiv] at h; simp at h
      | some ivB64 =>
        rw [hiv] at h
        by_cases htr : (ctB64.truthy && ivB64.truthy) = true
        · cases hc : st.cache with
          | none => simp [hc, htr] at h
          | some c =>
            by_cases hm : c.iv = ivB64 ∧ c.ct = ctB64
            · simp [hc, htr, hm] at h
              refine ⟨c, rfl, h, ?_, ?_, ?_, ?_⟩
              · rw [hm.2]
              · rw [hm.1]
              · rw [hm.2]; exact (Bool.and_eq_true _ _ |>.mp htr).1
              · rw [hm.1]; exact (Bool.and_eq_true _ _ |>.mp htr).2
            · simp [hc, htr, hm] at h
        · simp [htr] at h
  · intro h
    obtain ⟨c, hc, hval, htok, hiv, hct, hivt⟩ := h
    unfold getAuthToken
    rw [htok, hiv]
    simp [hct, hivt, hc, hval]

/-- Witness for the amended C2: a matching, non-empty cache state where
the cached plaintext is returned. -/
theorem getAuthToken_characterization_witness : getAuthToken stHit = some "t" :=
  (getAuthToken_characterization stHit "t").mpr
    ⟨⟨MStr.b64 (MBytes.raw [1]), MStr.b64 (MBytes.raw [2]), "t"⟩,
      by decide, by decide, by decide, by decide, by decide, by decide⟩

/-- Counterexample to claim C5 as stated ("returning null exactly when
either storage entry is absent or decryption fails"): here both storage
entries are present and decryption of the stored pair fails (the
device-secret entry is undecodable garbage), yet getAuthTokenAsync
returns the stale cached value "A" — a sync-cache hit bypasses
decryption entirely, so a corrupted device secret does not make the
reader return null while the cache still matches storage. -/
theorem getAuthTokenAsync_stale_counterexample :
    (getAuthTokenAsync envOn stStale).1 = some "A" ∧
    stStale.storage.tok = some (MStr.b64 (MBytes.raw [2])) ∧
    stStale.storage.iv = some (MStr.b64 (MBytes.raw [1])) ∧
    (decryptToken envOn (MStr.b64 (MBytes.raw [1])) (MStr.b64 (MBytes.raw [2])) stStale).1 = none := by
  refine ⟨by decide, by decide, by decide, by decide⟩

/-- Claim C5 (amended): getAuthTokenAsync returns a non-empty sync-cache
hit unchanged (even if the stored pair would no longer decrypt); on a
miss with both entries present and non-empty it returns exactly the
decryption result (null iff decryption fails), populating the cache with
the stored pair and the plaintext when decryption yields a non-empty
token and leaving the cache unchanged when decryption fails; on a miss
with an entry absent or empty it returns null with the state
untouched. -/
theorem getAuthTokenAsync_characterization (env : Env) (st : St) :
    (∀ v, getAuthToken st = some v → v.isEmpty = false → getAuthTokenAsync env st = (some v, st)) ∧
    (strTruthy (getAuthToken st) = false →
      ((optTruthy st.storage.tok = false ∨ optTruthy st.storage.iv = false) →
        getAuthTokenAsync env st = (none, st)) ∧
      (∀ ctB64 ivB64, st.storage.tok = some ctB64 → st.storage.iv = some ivB64 →
        ctB64.truthy = true → ivB64.truthy = true →
        ((getAuthTokenAsync env st).1 = (decryptToken env ivB64 ctB64 st).1 ∧
          (∀ v, (decryptToken env ivB64 ctB64 st).1 = some v → v.isEmpty = false →
            (getAuthTokenAsync env st).2.cache = some ⟨ivB64, ctB64, v⟩) ∧
          ((decryptToken env ivB64 ctB64 st).1 = none →
            (getAuthTokenAsync env st).1 = none ∧
            (getAuthTokenAsync env st).2.cache = st.cache)))) := by
  constructor
  · intro v hv hne
    unfold getAuthTokenAsync
    rw [hv]
    simp [strTruthy, hne]
  · intro hmiss
    constructor
    · intro habs
      unfold getAuthTokenAsync
      cases htok : st.storage.tok with
      | none => cases hiv : st.storage.iv <;> simp [hmiss, htok, hiv]
      | some ctB64 =>
        cases hiv : st.storage.iv with
        | none => simp [hmiss, htok, hiv]
        | some ivB64 =>
          rw [htok, hiv] at habs
          rcases habs with h1 | h1 <;> simp_all [optTruthy, hmiss, htok, hiv]
    · intro ctB64 ivB64 htok hiv hct hivt
      have hasync : getAuthTokenAsync env st =
          (if strTruthy (decryptToken env ivB64 ctB64 st).1 then
            ((decryptToken env ivB64 ctB64 st).1,
              { (decryptToken env ivB64 ctB64 st).2 with
                cache := some ⟨ivB64, ctB64, (decryptToken env ivB64 ctB64 st).1.getD ""⟩ })
          else ((decryptToken env ivB64 ctB64 st).1, (decryptToken env ivB64 ctB64 st).2)) := by
        unfold getAuthTokenAsync
        simp [hmiss, htok, hiv, hct, hivt]
      have hframe := decryptToken_frame env ivB64 ctB64 st
      cases hd : (decryptToken env ivB64 ctB64 st).1 with
      | none =>
        rw [hd] at hasync
        simp [strTruthy] at hasync
        refine ⟨?_, ?_, ?_⟩
        · rw [hasync]
        · intro v hv
          exact absurd hv (by simp)
        · intro _
          rw [hasync]
          exact ⟨rfl, hframe.2.2⟩
      | some s =>
        rw [hd] at hasync
        by_cases hse : s.isEmpty
        · simp [strTruthy, hse] at hasync
          refine ⟨?_, ?_, ?_⟩
          · rw [hasync]
          · intro v hv hvne
            simp only [Option.some.injEq] at hv
            rw [← hv] at hvne
            simp [hvne] at hse
          · intro hnone
            exact absurd hnone (by simp)
        · simp [strTruthy, hse] at hasync
          refine ⟨?_, ?_, ?_⟩
          · rw [hasync]
          · intro v hv hvne
            simp only [Option.some.injEq] at hv
            rw [hasync]
            simp [hv]
          · intro hnone
            exact absurd hnone (by simp)

/-- Witness for the amended C5: a non-empty sync-cache hit is returned
with the state unchanged. -/
theorem getAuthTokenAsync_characterization_witness :
    getAuthTokenAsync envOn stHit = (some "t", stHit) :=
  (getAuthTokenAsync_characterization envOn stHit).1 "t" (by decide) (by decide)

theorem setAuthToken_error_eq (env : Env) (token : String) (st : St) (e : JsErr) (st1 : St)
    (hf : encryptToken env token st = (Except.error e, st1)) :
    setAuthToken env token st =
      ({ st with storage := { st.storage with tok := some (MStr.str token) } }, []) := by
  have hst := encryptToken_error_state env token st e st1 hf
  subst hst
  unfold setAuthToken
  rw [hf]

/-- Counterexample to claim C6 as stated: a 401 response whose body does
not parse as JSON makes `response.json()` throw before the status check,
so the token entry survives and the caller receives the parse error, not
the distinguished AUTH_EXPIRED error. -/
theorem apiRequest_auth_counterexample :
    respBad401.status = 401 ∧
    (apiRequest envOn "/auth/verify" stTok respBad401).finalSt.storage.tok = some (MStr.str "x") ∧
    (apiRequest envOn "/auth/verify" stTok respBad401).outcome = Except.error jsonParseErrorMessage ∧
    jsonParseErrorMessage ≠ "AUTH_EXPIRED" := by
  refine ⟨by decide, by decide, by decide, by decide⟩

/-- Claim C6 (amended): for every request whose 401 or 403 response body
parses as JSON, both storage entries and the cache are cleared in the
final state and the caller receives the distinguished error AUTH_EXPIRED
(other non-2xx responses instead surface the normalized body-derived
message); when the 401/403 body fails to parse, the parse error wins and
the slot is not cleared. -/
theorem apiRequest_auth_expired (env : Env) (endpoint : String) (st : St) (resp : FetchResponse)
    (hjson : resp.jsonOk = true) (hstatus : resp.status = 401 ∨ resp.status = 403) :
    (apiRequest env endpoint st resp).finalSt.storage.tok = none ∧
    (apiRequest env endpoint st resp).finalSt.storage.iv = none ∧
    (apiRequest env endpoint st resp).finalSt.cache = none ∧
    (apiRequest env endpoint st resp).outcome = Except.error "AUTH_EXPIRED" := by
  have hje : jsOr (some "AUTH_EXPIRED") "Failed to connect to the server" = "AUTH_EXPIRED" := by
    decide
  unfold apiRequest
  rcases hstatus with h | h <;> simp [hjson, h, respOk, hje, removeAuthToken]

/-- Witness for the amended C6: a concrete 401-with-JSON response yields
the AUTH_EXPIRED outcome. -/
theorem apiRequest_auth_expired_witness :
    (apiRequest envOn "/auth/verify" stTok respJson401).outcome = Except.error "AUTH_EXPIRED" :=
  (apiRequest_auth_expired envOn "/auth/verify" stTok respJson401 rfl (Or.inl rfl)).2.2.2

/-- Counterexample to claim C7 as stated: with Web Crypto unavailable
the encryption promise rejects and setAuthToken persists the plaintext
token, but the emitted console-message list is empty — the fallback is
silently swallowed (only a source comment marks it), not logged or
flagged. -/
theorem setAuthToken_silent_counterexample :
    (setAuthToken envOff "tok-123" stEmpty).1.storage.tok = some (MStr.str "tok-123") ∧
    (setAuthToken envOff "tok-123" stEmpty).2 = [] := by
  refine ⟨by decide, by decide⟩

/-- Claim C7 (amended): on every encryption failure setAuthToken falls
back to persisting the plaintext token under the token key (the session
is not lost), leaving every other slot unchanged — and it does so
silently, emitting no log or flag. -/
theorem setAuthToken_fallback_plaintext (env : Env) (token : String) (st : St)
    (e : JsErr) (st1 : St) (hf : encryptToken env token st = (Except.error e, st1)) :
    setAuthToken env token st =
      ({ st with storage := { st.storage with tok := some (MStr.str token) } }, []) :=
  setAuthToken_error_eq env token st e st1 hf

/-- Witness for the amended C7: the concrete no-crypto environment. -/
theorem setAuthToken_fallback_plaintext_witness :
    setAuthToken envOff "tok-123" stEmpty =
      ({ stEmpty with storage := { stEmpty.storage with tok := some (MStr.str "tok-123") } }, []) :=
  setAuthToken_fallback_plaintext envOff "tok-123" stEmpty JsErr.webCryptoUnavailable stEmpty
    (by decide)

/-- Counterexample to claim C8 as stated ("returns the base64-decoded
stored value whenever persistent storage holds an entry under the
device-secret key, without consulting the random source"): when the
stored entry is the empty string, the code treats the present entry as
absent, consults the random source (the entropy supply is consumed) and
overwrites the entry with a freshly generated secret. -/
theorem deviceSecret_empty_entry_counterexample :
    stEmptySecret.storage.secret = some (MStr.str "") ∧
    (getOrCreateDeviceSecret envOn stEmptySecret).2.randSrc = [] ∧
    (getOrCreateDeviceSecret envOn stEmptySecret).2.storage.secret ≠ some (MStr.str "") := by
  refine ⟨by decide, by decide, by decide⟩

/-- Claim C8 (amended): getOrCreateDeviceSecret returns the
base64-decoded stored value without consulting the random source
whenever storage holds a non-empty device-secret entry (throwing, not
generating, if that entry does not decode); when the entry is absent or
empty it draws 32 bytes from the secure random source, persists them
base64-encoded and returns them, and if no secure random source is
available it throws rather than degrading to insecure randomness. -/
theorem getOrCreateDeviceSecret_characterization (env : Env) (st : St) :
    (∀ s, st.storage.secret = some s → s.truthy = true →
      (∀ b, atob s = some b → getOrCreateDeviceSecret env st = (Except.ok b, st)) ∧
      (atob s = none →
        getOrCreateDeviceSecret env st = (Except.error JsErr.invalidB64, st))) ∧
    (optTruthy st.storage.secret = false →
      (env.cryptoAvailable = false →
        getOrCreateDeviceSecret env st = (Except.error JsErr.webCryptoUnavailable, st)) ∧
      (env.cryptoAvailable = true →
        ∃ buf, buf.length = 32 ∧
          getOrCreateDeviceSecret env st =
            (Except.ok (MBytes.raw buf),
              { st with
                storage := { st.storage with secret := some (MStr.b64 (MBytes.raw buf)) },
                randSrc := st.randSrc.tail }))) := by
  constructor
  · intro s hs htr
    constructor
    · intro b hb
      unfold getOrCreateDeviceSecret
      rw [hs]
      simp [htr, hb]
    · intro hb
      unfold getOrCreateDeviceSecret
      rw [hs]
      simp [htr, hb]
  · intro hfalsy
    constructor
    · intro hc
      unfold getOrCreateDeviceSecret
      cases hs : st.storage.secret with
      | none => simp [getCryptoOrThrow, hc]
      | some s =>
        rw [hs] at hfalsy
        simp only [optTruthy] at hfalsy
        simp [hfalsy, getCryptoOrThrow, hc]
    · intro hc
      rcases hg : getRandomValues 32 st with ⟨buf, st2⟩
      have hrv := getRandomValues_spec 32 st
      rw [hg] at hrv
      refine ⟨buf, hrv.1, ?_⟩
      unfold getOrCreateDeviceSecret
      cases hs : st.storage.secret with
      | none =>
        rw [show getCryptoOrThrow env = Except.ok () from by simp [getCryptoOrThrow, hc]]
        simp only [hg]
        rw [hrv.2.1, hrv.2.2.1, hrv.2.2.2]
        rfl
      | some s =>
        rw [hs] at hfalsy
        simp only [optTruthy] at hfalsy
        rw [show getCryptoOrThrow env = Except.ok () from by simp [getCryptoOrThrow, hc]]
        simp only [hfalsy, Bool.false_eq_true, if_false, hg]
        rw [hrv.2.1, hrv.2.2.1, hrv.2.2.2]
        rfl

/-- Witness for the amended C8: the stored secret is returned decoded,
with the state untouched. -/
theorem getOrCreateDeviceSecret_characterization_witness :
    getOrCreateDeviceSecret envOn stSecret7 = (Except.ok (MBytes.raw [7]), stSecret7) :=
  ((getOrCreateDeviceSecret_characterization envOn stSecret7).1
    (MStr.b64 (MBytes.raw [7])) (by decide) (by decide)).1 (MBytes.raw [7]) (by decide)

/-- Claim C10: on the encryption-failure fallback path setAuthToken
writes the plaintext token only under the token key — the stored nonce
entry, the device-secret entry and the in-memory cache are unchanged —
and when the previous state held an encrypted token (the cache record,
if any, carries a base64 ciphertext), the freshly stored token is
unreadable through both public read paths: getAuthToken returns null
(the cache no longer matches storage) and getAuthTokenAsync returns
null (the plaintext entry does not decrypt). -/
theorem setAuthToken_fallback_unreadable (env : Env) (token : String) (st : St)
    (e : JsErr) (st1 : St) (hf : encryptToken env token st = (Except.error e, st1))
    (hcache : ∀ c, st.cache = some c → ∃ b, c.ct = MStr.b64 b) :
    (setAuthToken env token st).1.storage.tok = some (MStr.str token) ∧
    (setAuthToken env token st).1.storage.iv = st.storage.iv ∧
    (setAuthToken env token st).1.storage.secret = st.storage.secret ∧
    (setAuthToken env token st).1.cache = st.cache ∧
    getAuthToken (setAuthToken env token st).1 = none ∧
    (getAuthTokenAsync env (setAuthToken env token st).1).1 = none := by
  rw [setAuthToken_error_eq env token st e st1 hf]
  refine ⟨rfl, rfl, rfl, rfl, ?_, ?_⟩
  · unfold getAuthToken
    cases hiv : st.storage.iv with
    | none => simp [hiv]
    | some ivv =>
      simp only [hiv]
      by_cases htr : ((MStr.str token).truthy && ivv.truthy) = true
      · simp only [htr, if_true]
        cases hcch : st.cache with
        | none => simp
        | some c =>
          obtain ⟨b, hb⟩ := hcache c hcch
          simp [hb]
      · simp [htr]
  · have hga : getAuthToken
        ({ st with storage := { st.storage with tok := some (MStr.str token) } } : St) = none := by
      unfold getAuthToken
      cases hiv : st.storage.iv with
      | none => simp [hiv]
      | some ivv =>
        simp only [hiv]
        by_cases htr : ((MStr.str token).truthy && ivv.truthy) = true
        · simp only [htr, if_true]
          cases hcch : st.cache with
          | none => simp
          | some c =>
            obtain ⟨b, hb⟩ := hcache c hcch
            simp [hb]
        · simp [htr]
    unfold getAuthTokenAsync
    rw [hga]
    simp only [strTruthy, Bool.false_eq_true, if_false]
    cases hiv : st.storage.iv with
    | none => simp [hiv]
    | some ivv =>
      simp only [hiv]
      by_cases htr : ((MStr.str token).truthy && ivv.truthy) = true
      · simp only [htr, if_true]
        simp [decryptToken_plainStr_none]
      · simp [htr]

/-- Witness for C10: after the fallback overwrites a previous encrypted
token with plaintext "B", the synchronous reader returns null. -/
theorem setAuthToken_fallback_unreadable_witness :
    getAuthToken (setAuthToken envOn "B" stPrev).1 = none :=
  (setAuthToken_fallback_unreadable envOn "B" stPrev JsErr.invalidB64 stPrev (by decide)
    (by
      intro c hc
      rw [show stPrev.cache
          = some ⟨MStr.b64 (MBytes.raw [3]), MStr.b64 (MBytes.raw [4]), "A"⟩ from rfl] at hc
      injection hc with h
      exact ⟨MBytes.raw [4], by rw [← h]⟩)).2.2.2.2.1
